import Mathlib

/-!
Verification of the incoming-damage timeline pipeline.

The definitions below are a shallow embedding of `main.py` and
`generate_static_page.py`.  Polars dataframes are modelled as lists of
records (one structure per row shape); nullable columns are `Option`
fields; polars' three-valued (Kleene) boolean logic for filter
expressions over nullable columns is modelled explicitly by `kAnd` /
`kNot`; float columns produced by integer arithmetic
(`elapsed_seconds`, medians) are modelled exactly by `Rat`.
-/

/-! ### Kleene (three-valued) boolean logic of polars expressions

In polars, `~null = null`, `null & false = false`, `null & true = null`,
and `DataFrame.filter` keeps exactly the rows where the predicate
evaluates to `true` (dropping both `false` and `null` rows). -/

def kNot : Option Bool → Option Bool
  | none => none
  | some b => some (!b)

def kAnd : Option Bool → Option Bool → Option Bool
  | some false, _ => some false
  | _, some false => some false
  | some true, some true => some true
  | _, _ => none

/-- Comparison `col < c` on a nullable integer column: null propagates. -/
def kLtInt (a : Option Int) (c : Int) : Option Bool :=
  a.map (fun v => decide (v < c))

/-! ### Numeric helpers for float-column operations -/

/-- Truncation toward zero, the semantics of polars' `.cast(int)` on floats. -/
def ratTruncToInt (q : Rat) : Int := q.num.tdiv (q.den : Int)

/-- Python float floor division `a // b` (integral result). -/
def pyFloorDiv (a b : Rat) : Int := (a / b).floor

/-- Python float modulo `a % b` (`a - b * (a / b).floor`). -/
def pyMod (a b : Rat) : Rat := a - b * ((a / b).floor : Rat)

/-- Left-pad with `'0'` up to `width` characters. -/
def padZeros (width : Nat) (s : String) : String :=
  if s.length ≥ width then s
  else String.mk (List.replicate (width - s.length) '0') ++ s

/-- Polars `.str.zfill(width)`: zero-pad, keeping a leading sign in front. -/
def zfill (width : Nat) (s : String) : String :=
  if s.startsWith "-" then "-" ++ padZeros (width - 1) (s.drop 1)
  else padZeros width s

/-- `IncomingDamage.format_elapsed_time`: format elapsed seconds as MM:SS.sss
(`secs = col % 60`; minutes `col // 60` cast to int; `secs` cast to int;
milliseconds `secs * 1000 % 1000` cast to int; each zero-filled). -/
def format_elapsed_time (q : Rat) : String :=
  let secs := pyMod q 60
  zfill 2 (toString (pyFloorDiv q 60)) ++ ":" ++
    zfill 2 (toString (ratTruncToInt secs)) ++ "." ++
    zfill 3 (toString (ratTruncToInt (pyMod (secs * 1000) 1000)))

/-! ### Raw API records (`event_response` contents) -/

/-- The `ability` struct column of a raw damage event. -/
structure Ability where
  name : String
  guid : Int
  type : Int
deriving DecidableEq, Repr

/-- One record of `report.events.data` (dataType `DamageTaken`). -/
structure RawEvent where
  timestamp : Int
  type : String
  packetID : Int
  hitType : Int
  amount : Int
  unmitigatedAmount : Option Int
  targetID : Int
  buffs : Option String
  ability : Ability
deriving DecidableEq, Repr

/-- One record of `report.startingEvent.data` (dataType `All`). -/
structure StartingEvent where
  type : String
  timestamp : Int
deriving DecidableEq, Repr

/-- One record of `playerDetails` (after `_get_party_table`'s projection). -/
structure PlayerDetail where
  name : String
  id : Int
  icon : String
deriving DecidableEq, Repr

/-- One record of `buffTable.data.auras`. -/
structure AuraRecord where
  name : String
  guid : Int
deriving DecidableEq, Repr

/-! ### Curated damage-category configuration -/

/-- A value of the `damage_category_dict`: either the new dict format
(whose keys may each be absent) or the old plain-value format. -/
inductive AbilityMetadata where
  | dict (damage_category : Option String) (is_tank_damage : Option Bool)
      (ability_name : Option String) (descr : Option String)
  | plain (value : String)
deriving DecidableEq, Repr

/-- One row of the damage-category table built by
`_get_damage_category_table`. -/
structure CategoryRow where
  ability_id : Int
  damage_category : Option String
  is_tank_damage : Bool
  ability_name : Option String
  description : Option String
deriving DecidableEq, Repr

/-- `IncomingDamage._get_damage_category_table`.  The dict format reads
`damage_category`, `is_tank_damage` (defaulting to `False` when absent),
`ability_name` and `description` (an empty/falsy description becomes
null); the plain format stores the value as the category with
`is_tank_damage = False` and null name/description.  The Python input is
a dict, so the `ability_id` keys are distinct. -/
def get_damage_category_table (party_damage_dict : List (Int × AbilityMetadata)) :
    List CategoryRow :=
  party_damage_dict.map (fun entry =>
    match entry.2 with
    | .dict dc itd an desc =>
        { ability_id := entry.1
          damage_category := dc
          is_tank_damage := itd.getD false
          ability_name := an
          description :=
            match desc with
            | some s => if s = "" then none else some s
            | none => none }
    | .plain v =>
        { ability_id := entry.1
          damage_category := some v
          is_tank_damage := false
          ability_name := none
          description := none })

/-! ### Role, vuln and category lookups -/

def TANKS : List String := ["DarkKnight", "Gunbreaker", "Warrior", "Paladin"]

/-- `IncomingDamage._get_role_ids`: ids of tanks and of non-tanks. -/
def get_role_ids (party_table : List PlayerDetail) : List Int × List Int :=
  ((party_table.filter (fun p => TANKS.contains p.icon)).map (fun p => p.id),
   (party_table.filter (fun p => !TANKS.contains p.icon)).map (fun p => p.id))

/-- `IncomingDamage._get_vuln_ids`: guids of debuffs named
"vulnerability up" (case-insensitive). -/
def get_vuln_ids (auras : List AuraRecord) : List Int :=
  (auras.filter (fun b => b.name.toLower == "vulnerability up")).map (fun v => v.guid)

/-- The left-join lookup `join(damage_category_table, on="ability_id",
how="left")` restricted to one event: first matching category row.  The
category table comes from a Python dict, so keys are unique and a left
join matches at most one row. -/
def lookup_category (damage_category_table : List CategoryRow) (ability_id : Int) :
    Option CategoryRow :=
  damage_category_table.find? (fun c => c.ability_id == ability_id)

/-! ### Column expressions used by `_get_damage_events_table` -/

/-- `strip_chars_end(".")`: drop all trailing `'.'` characters. -/
def strip_chars_end_dot (s : String) : String :=
  String.mk ((s.toList.reverse.dropWhile (fun c => c == '.')).reverse)

/-- `str.split(sep)` for a one-character separator, on the character
list: split at every occurrence, keeping empty segments (so the result
is always nonempty, like Python's and polars' split). -/
def splitOnChar (sep : Char) : List Char → List (List Char)
  | [] => [[]]
  | c :: cs =>
    let groups := splitOnChar sep cs
    if c == sep then [] :: groups
    else
      match groups with
      | [] => [[c]]
      | g :: gs => (c :: g) :: gs

/-- The decimal value of one digit character. -/
def digitVal (c : Char) : Option Nat :=
  if c.isDigit then some (c.toNat - 48) else none

/-- A nonempty all-digit character list as a number. -/
def parseDigits (cs : List Char) : Option Nat :=
  if cs.isEmpty then none
  else cs.foldl (fun acc c => acc.bind
    (fun n => (digitVal c).map (fun d => n * 10 + d))) (some 0)

/-- The strict string-to-int cast of one split piece: an optionally
signed decimal integer, anything else failing. -/
def castPieceToInt (cs : List Char) : Option Int :=
  match cs with
  | '-' :: rest => (parseDigits rest).map (fun n => -(n : Int))
  | _ => (parseDigits cs).map (fun n => (n : Int))

/-- `IncomingDamage.make_buff_list_col`: the nullable `buffs` string
column (e.g. `"123.456."`) becomes a nullable list-of-int column by
stripping trailing dots, splitting on `"."` and casting each piece to
int.  A null input stays null; a piece that is not an integer makes the
strict polars cast fail, modelled here as a null list. -/
def make_buff_list_col (buffs : Option String) : Option (List Int) :=
  buffs.bind (fun s =>
    (splitOnChar '.' (strip_chars_end_dot s).toList).mapM castPieceToInt)

/-- `IncomingDamage.flag_vuln_status`: whether any buff id in
`buff_list` is a Vulnerability Up id; a null buff list gives null, which
`fill_null(False)` turns into `False`. -/
def flag_vuln_status (vuln_ids : List Int) (buff_list : Option (List Int)) : Bool :=
  match buff_list with
  | none => false
  | some bs => bs.any (fun b => vuln_ids.contains b)

/-- `IncomingDamage.flag_tank_player_id`: `when(targetID ∈ tank_ids)
.then(True).otherwise(False)`. -/
def flag_tank_player_id (tank_ids : List Int) (targetID : Int) : Bool :=
  if tank_ids.contains targetID then true else false

def DAMAGE_TYPE : List (Int × String) := [(128, "Physical"), (1024, "Magical")]

/-- `replace_strict(DAMAGE_TYPE, default="unknown")` on `damage_type_id`. -/
def replace_strict_damage_type (damage_type_id : Int) : String :=
  (DAMAGE_TYPE.lookup damage_type_id).getD "unknown"

/-- `IncomingDamage.assign_group_by_field`: `when(damage_category ==
"party").then(packetID).otherwise(elapsed_seconds)`.  A null category
compares as null, which `when` routes to the `otherwise` branch. -/
def assign_group_by_field (damage_category : Option String) (packetID : Int)
    (elapsed_seconds : Rat) : Rat :=
  if damage_category = some "party" then (packetID : Rat) else elapsed_seconds

/-! ### The processed damage-events table -/

/-- One row of `damage_events_table` after `_get_damage_events_table`:
the ten selected columns, the four `with_columns` additions, the four
columns brought in by the left join with the category table (the join's
`ability_name` collides and is suffixed `_right`; the three nullable
ones are null when the event's ability is absent from the
configuration), and the final `group_by_field`. -/
structure EventRow where
  elapsed_seconds : Rat
  packetID : Int
  hitType : Int
  amount : Int
  unmitigatedAmount : Option Int
  targetID : Int
  buff_list : Option (List Int)
  ability_name : String
  ability_id : Int
  damage_type_id : Int
  formatted_time : String
  is_tank : Bool
  is_vuln_damage : Bool
  damage_type : String
  damage_category : Option String
  is_tank_damage : Option Bool
  ability_name_right : Option String
  description : Option String
  group_by_field : Rat
deriving DecidableEq, Repr

/-- Row-level body of `_get_damage_events_table`: all column expressions
applied to a single raw damage event. -/
def process_damage_event (damage_category_table : List CategoryRow)
    (tank_ids vuln_ids : List Int) (start_timestamp : Int) (e : RawEvent) : EventRow :=
  let elapsed : Rat := ((e.timestamp : Rat) - (start_timestamp : Rat)) / 1000
  let buffList := make_buff_list_col e.buffs
  let catRow := lookup_category damage_category_table e.ability.guid
  { elapsed_seconds := elapsed
    packetID := e.packetID
    hitType := e.hitType
    amount := e.amount
    unmitigatedAmount := e.unmitigatedAmount
    targetID := e.targetID
    buff_list := buffList
    ability_name := e.ability.name
    ability_id := e.ability.guid
    damage_type_id := e.ability.type
    formatted_time := format_elapsed_time elapsed
    is_tank := flag_tank_player_id tank_ids e.targetID
    is_vuln_damage := flag_vuln_status vuln_ids buffList
    damage_type := replace_strict_damage_type e.ability.type
    damage_category := catRow.bind (fun c => c.damage_category)
    is_tank_damage := catRow.map (fun c => c.is_tank_damage)
    ability_name_right := catRow.bind (fun c => c.ability_name)
    description := catRow.bind (fun c => c.description)
    group_by_field :=
      assign_group_by_field (catRow.bind (fun c => c.damage_category)) e.packetID elapsed }

/-- `IncomingDamage._get_damage_events_table`: keep the raw records of
type `"damage"` and apply all column expressions to each. -/
def get_damage_events_table (damage_category_table : List CategoryRow)
    (tank_ids vuln_ids : List Int) (start_timestamp : Int)
    (raw_events : List RawEvent) : List EventRow :=
  (raw_events.filter (fun e => e.type == "damage")).map
    (process_damage_event damage_category_table tank_ids vuln_ids start_timestamp)

/-- `IncomingDamage._get_start_timestamp`: the timestamp of the first
`"limitbreakupdate"` record of the starting events; when there is none
(or its extraction fails, which the `except` clause maps to the same
fallback), the timestamp of the first damage event.  `none` models the
case where the fallback indexing `[0]` itself would raise. -/
def get_start_timestamp (starting_events : List StartingEvent)
    (damage_events : List RawEvent) : Option Int :=
  match (starting_events.filter (fun e => e.type == "limitbreakupdate")).head? with
  | some e => some e.timestamp
  | none => damage_events.head?.map (fun d => d.timestamp)

/-! ### Aggregation (`_aggregate_incoming_damage`) -/

/-- One row of the profile returned by `_aggregate_incoming_damage`:
the group key plus the aggregated columns, named as in the source. -/
structure AggRow where
  group_by_field : Rat
  elapsed_seconds : Rat
  formatted_time : String
  ability_name : String
  unmitigatedAmount : Option Int
  description : Option String
  damage_type : String
  damage_type_id : Int
deriving DecidableEq, Repr

/-- The distinct values of a key column, in order of first appearance
(one polars group per distinct `group_by_field` value). -/
def unique_keys : List Rat → List Rat
  | [] => []
  | k :: ks => k :: unique_keys (ks.filter (fun x => x ≠ k))
termination_by l => l.length
decreasing_by
  exact Nat.lt_succ_of_le (List.length_filter_le _ _)

/-- The polars median: sort, take the middle element (odd count) or the
mean of the two middle elements (even count); empty (all-null) gives
null. -/
def median_rat (values : List Rat) : Option Rat :=
  let s := List.insertionSort (fun a b : Rat => a ≤ b) values
  let n := s.length
  if n = 0 then none
  else if n % 2 = 1 then some (s.getD (n / 2) 0)
  else some ((s.getD (n / 2 - 1) 0 + s.getD (n / 2) 0) / 2)

/-- The aggregated row of one group, mirroring the `agg` list:
median `elapsed_seconds`, that median formatted, first `ability_name`,
median `unmitigatedAmount` (nulls ignored by the polars median) cast to
int, first `description`, first `damage_type`, first `damage_type_id`.
Applied only to nonempty groups; the `[]` branches are arbitrary. -/
def mk_agg_row (key : Rat) (group : List EventRow) : AggRow :=
  let med := (median_rat (group.map (fun r => r.elapsed_seconds))).getD 0
  { group_by_field := key
    elapsed_seconds := med
    formatted_time := format_elapsed_time med
    ability_name := match group with | [] => "" | r :: _ => r.ability_name
    unmitigatedAmount :=
      (median_rat ((group.filterMap (fun r => r.unmitigatedAmount)).map
        (fun v => (v : Rat)))).map ratTruncToInt
    description := match group with | [] => none | r :: _ => r.description
    damage_type := match group with | [] => "" | r :: _ => r.damage_type
    damage_type_id := match group with | [] => 0 | r :: _ => r.damage_type_id }

instance : DecidableRel (fun a b : AggRow => a.elapsed_seconds ≤ b.elapsed_seconds) :=
  fun a b => inferInstanceAs (Decidable (a.elapsed_seconds ≤ b.elapsed_seconds))

instance : IsTotal AggRow (fun a b => a.elapsed_seconds ≤ b.elapsed_seconds) :=
  ⟨fun a b => le_total a.elapsed_seconds b.elapsed_seconds⟩

instance : IsTrans AggRow (fun a b => a.elapsed_seconds ≤ b.elapsed_seconds) :=
  ⟨fun _ _ _ h1 h2 => le_trans h1 h2⟩

/-- `IncomingDamage._aggregate_incoming_damage`: group by
`group_by_field`, aggregate each group, sort by the aggregated
`elapsed_seconds`.  Polars' group order before the final sort is
unspecified; first-appearance order is one realization of it. -/
def aggregate_incoming_damage (filtered_damage_events : List EventRow) : List AggRow :=
  List.insertionSort (fun a b : AggRow => a.elapsed_seconds ≤ b.elapsed_seconds)
    ((unique_keys (filtered_damage_events.map (fun r => r.group_by_field))).map
      (fun k => mk_agg_row k
        (filtered_damage_events.filter (fun r => r.group_by_field = k))))

/-! ### `get_incoming_damage_profile` -/

/-- The filter expression of `get_incoming_damage_profile`:
`~is_tank & ~is_tank_damage & ~is_vuln_damage &
unmitigatedAmount.is_not_null() & (unmitigatedAmount < ceiling)`,
evaluated in Kleene logic (`is_tank_damage` is null for events whose
ability is absent from the category configuration). -/
def party_filter_expr (party_damage_ceiling : Int) (r : EventRow) : Option Bool :=
  kAnd (kAnd (kAnd (kAnd (kNot (some r.is_tank)) (kNot r.is_tank_damage))
    (kNot (some r.is_vuln_damage))) (some r.unmitigatedAmount.isSome))
    (kLtInt r.unmitigatedAmount party_damage_ceiling)

/-- The event rows that `get_incoming_damage_profile` feeds into the
aggregation: the Kleene filter, then (by default) the
`damage_category.is_not_null()` filter. -/
def party_profile_events (party_damage_ceiling : Int)
    (filter_uncategorized_damage : Bool)
    (damage_events_table : List EventRow) : List EventRow :=
  let party_damage := damage_events_table.filter
    (fun r => party_filter_expr party_damage_ceiling r == some true)
  if filter_uncategorized_damage then
    party_damage.filter (fun r => r.damage_category.isSome)
  else party_damage

/-- `IncomingDamage.get_incoming_damage_profile`. -/
def get_incoming_damage_profile (party_damage_ceiling : Int)
    (filter_uncategorized_damage : Bool)
    (damage_events_table : List EventRow) : List AggRow :=
  aggregate_incoming_damage
    (party_profile_events party_damage_ceiling filter_uncategorized_damage
      damage_events_table)

/-! ### `get_incoming_tank_damage_profile` -/

/-- The filter expression of `get_incoming_tank_damage_profile`:
`is_tank & is_tank_damage & unmitigatedAmount.is_not_null() &
(unmitigatedAmount < ceiling)` in Kleene logic. -/
def tank_filter_expr (tank_damage_ceiling : Int) (r : EventRow) : Option Bool :=
  kAnd (kAnd (kAnd (some r.is_tank) r.is_tank_damage)
    (some r.unmitigatedAmount.isSome))
    (kLtInt r.unmitigatedAmount tank_damage_ceiling)

/-- The event rows kept by `get_incoming_tank_damage_profile` before its
final column projection.  `filter_uncategorized_events` is accepted but
never read, exactly as in the source. -/
def tank_profile_events (tank_damage_ceiling : Int)
    (filter_uncategorized_events filter_vulns : Bool)
    (damage_events_table : List EventRow) : List EventRow :=
  let tank_damage := damage_events_table.filter
    (fun r => tank_filter_expr tank_damage_ceiling r == some true)
  if filter_vulns then tank_damage.filter (fun r => !r.is_vuln_damage)
  else tank_damage

/-- The eight columns selected by `get_incoming_tank_damage_profile`. -/
structure TankRow where
  elapsed_seconds : Rat
  formatted_time : String
  ability_name : String
  unmitigatedAmount : Option Int
  targetID : Int
  description : Option String
  damage_type : String
  damage_type_id : Int
deriving DecidableEq, Repr

/-- The final `select` of `get_incoming_tank_damage_profile`. -/
def to_tank_row (r : EventRow) : TankRow :=
  { elapsed_seconds := r.elapsed_seconds
    formatted_time := r.formatted_time
    ability_name := r.ability_name
    unmitigatedAmount := r.unmitigatedAmount
    targetID := r.targetID
    description := r.description
    damage_type := r.damage_type
    damage_type_id := r.damage_type_id }

/-- `IncomingDamage.get_incoming_tank_damage_profile`. -/
def get_incoming_tank_damage_profile (tank_damage_ceiling : Int)
    (filter_uncategorized_events filter_vulns : Bool)
    (damage_events_table : List EventRow) : List TankRow :=
  (tank_profile_events tank_damage_ceiling filter_uncategorized_events
    filter_vulns damage_events_table).map to_tank_row

/-! ### Schema of the processed damage-events table (for the column
claims).  Derived stage by stage from `_get_damage_events_table`:
the `select` column order, the named `with_columns` additions (the
second `with_columns` only overwrites `is_tank` / `is_vuln_damage`),
the left join's new columns in category-table order with the colliding
`ability_name` suffixed `_right`, and the final `group_by_field`. -/

def select_columns : List String :=
  ["elapsed_seconds", "packetID", "hitType", "amount", "unmitigatedAmount",
   "targetID", "buff_list", "ability_name", "ability_id", "damage_type_id"]

def with_columns_added : List String :=
  ["formatted_time", "is_tank", "is_vuln_damage", "damage_type"]

def join_added_columns : List String :=
  ["damage_category", "is_tank_damage", "ability_name_right", "description"]

/-- The columns of `damage_events_table`, in order. -/
def damage_events_table_columns : List String :=
  select_columns ++ with_columns_added ++ join_added_columns ++ ["group_by_field"]

/-- The seven/eight data items the specification describes for the table
("timestamp offset, ability id/name, raw/unmitigated amount, target id,
buff list, damage category"), as column names.  This definition follows
the spec's words, for comparison with the table's actual schema. -/
def spec_described_columns : List String :=
  ["elapsed_seconds", "ability_id", "ability_name", "amount",
   "unmitigatedAmount", "targetID", "buff_list", "damage_category"]

/-! ### Static page generation (`generate_static_page.py`) -/

/-- One entry of the `logs` configuration. -/
structure FightData where
  report_id : String
  fight_id : Int
  party_damage : List (Int × AbilityMetadata)

/-- The error placeholder section `main` appends when generating a
fight's section raises (the f-string of the `except` branch). -/
def error_placeholder_section (fight_name : String) (err_msg : String) : String :=
  "\n    <div class=\"fight-section\" id=\"" ++ fight_name.toLower ++ "\">\n" ++
  "        <h2 class=\"fight-title\">" ++ fight_name ++ "</h2>\n" ++
  "        <div class=\"alert alert-danger\" role=\"alert\">\n" ++
  "            Error generating data for this fight: " ++ err_msg ++ "\n" ++
  "        </div>\n    </div>\n"

/-- The `main` of `generate_static_page.py`, modelled as the content it
writes to `docs/index.html`.  `generate_section` stands for
`generate_fight_section`; a `.error` result models the section raising
an exception, which the `try/except` turns into the placeholder while
the loop continues.  The header, table of contents and footer are the
HTML glue strings, left abstract since only concatenation order
matters. -/
def main_html_content (header toc footer : String)
    (generate_section : String → FightData → Except String String)
    (logs : List (String × FightData)) : String :=
  (logs.foldl (fun html_content fight =>
    match generate_section fight.1 fight.2 with
    | .ok sec => html_content ++ sec
    | .error e => html_content ++ error_placeholder_section fight.1 e)
    (header ++ toc)) ++ footer

/-! ### The FFLogs API call (`FFLogsAPI.gql_query`) -/

/-- A JSON value, the result of `response.json()`. -/
inductive JsonValue where
  | null
  | bool (b : Bool)
  | num (n : Int)
  | str (s : String)
  | arr (elems : List JsonValue)
  | obj (fields : List (String × JsonValue))

/-- An HTTP response as `requests` delivers it: the status code, and the
body's JSON parse (`none` when the body is not valid JSON, in which case
`response.json()` raises). -/
structure HttpResponse where
  status_code : Nat
  jsonBody : Option JsonValue

/-- The exceptions `gql_query` can propagate from the response
handling. -/
inductive RequestError where
  | httpError (status : Nat)
  | jsonDecodeError
deriving DecidableEq, Repr

/-- The `json_payload` dict sent by `gql_query`. -/
structure GqlPayload where
  query : String
  query_variables : List (String × JsonValue)
  operationName : String

/-- `requests.Response.raise_for_status`: raises `HTTPError` exactly for
client-error (4xx) and server-error (5xx) status codes. -/
def raise_for_status (r : HttpResponse) : Except RequestError Unit :=
  if 400 ≤ r.status_code ∧ r.status_code < 600 then
    .error (.httpError r.status_code)
  else .ok ()

/-- `requests.Response.json`: the parsed body, raising when the body is
not valid JSON. -/
def response_json (r : HttpResponse) : Except RequestError JsonValue :=
  match r.jsonBody with
  | some j => .ok j
  | none => .error .jsonDecodeError

/-- `FFLogsAPI.gql_query`: build the payload, POST it (`post` stands for
the network exchange, returning the server's response), call
`raise_for_status`, then return `response.json()`. -/
def gql_query (post : GqlPayload → HttpResponse) (query : String)
    (query_variables : List (String × JsonValue)) (operation_name : String) :
    Except RequestError JsonValue :=
  let json_payload : GqlPayload :=
    { query := query, query_variables := query_variables,
      operationName := operation_name }
  let response := post json_payload
  match raise_for_status response with
  | .error e => .error e
  | .ok _ => response_json response

/-! ### Spec-side definitions used by the claim statements -/

/-- The aggregate row the specification describes for one group: median
`elapsed_seconds`, median `unmitigatedAmount` (over its non-null values)
cast to int, and the first row's `ability_name`, `description`,
`damage_type`, `damage_type_id`.  Written from the claim's words, to be
compared with `mk_agg_row`. -/
def agg_row_spec (a : AggRow) (group : List EventRow) : Prop :=
  median_rat (group.map (fun r => r.elapsed_seconds)) = some a.elapsed_seconds
  ∧ a.unmitigatedAmount =
      (median_rat ((group.filterMap (fun r => r.unmitigatedAmount)).map
        (fun v => (v : Rat)))).map ratTruncToInt
  ∧ ∀ x, group.head? = some x →
      a.ability_name = x.ability_name ∧ a.description = x.description
      ∧ a.damage_type = x.damage_type ∧ a.damage_type_id = x.damage_type_id

/-- The row predicate the C4 claim describes for the tank profile:
target is a tank, the ability is tagged as tank damage in the curated
configuration, the unmitigated amount is non-null and below the
ceiling, and (when `filter_vulns`) the row is not vulnerability
damage. -/
def c4_spec_pred (cfg : List CategoryRow) (tank_ids : List Int) (tceil : Int)
    (fv : Bool) (r : EventRow) : Bool :=
  tank_ids.contains r.targetID
  && ((lookup_category cfg r.ability_id).map (fun c => c.is_tank_damage) == some true)
  && (match r.unmitigatedAmount with
      | some v => decide (v < tceil)
      | none => false)
  && (!fv || !r.is_vuln_damage)

/-- The per-fight sections of the generated page as the claim describes
them: each fight contributes its section on success and the error
placeholder on failure, concatenated in fight order. -/
def sections_html (generate_section : String → FightData → Except String String)
    (logs : List (String × FightData)) : String :=
  logs.foldr (fun fight rest =>
    (match generate_section fight.1 fight.2 with
     | .ok sec => sec
     | .error e => error_placeholder_section fight.1 e) ++ rest) ""

/-! ### Concrete instances for witnesses and counterexamples -/

/-- A non-tank damage event (no buffs, valid unmitigated amount) whose
ability id 42 may or may not be in the category configuration. -/
def c1_raw : RawEvent :=
  { timestamp := 1000, type := "damage", packetID := 11, hitType := 1,
    amount := 50, unmitigatedAmount := some 100, targetID := 1,
    buffs := none, ability := { name := "Attack", guid := 42, type := 128 } }

/-- The table built with an empty category configuration: ability 42 is
uncategorized, so the joined flags are null. -/
def c1_table : List EventRow := get_damage_events_table [] [] [] 0 [c1_raw]

def c1_row : EventRow := process_damage_event [] [] [] 0 c1_raw

def c1w_cfg : List CategoryRow :=
  get_damage_category_table [(42, .dict (some "party") (some false) (some "Attack") none)]

def c1w_table : List EventRow := get_damage_events_table c1w_cfg [] [] 0 [c1_raw]

def c1w_row : EventRow := process_damage_event c1w_cfg [] [] 0 c1_raw

/-- A configuration tagging ability 7 as tank damage. -/
def c2_cfg : List CategoryRow :=
  get_damage_category_table [(7, .dict (some "tank") (some true) none none)]

/-- A tank-targeted damage event carrying Vulnerability Up (buff 99). -/
def c2_raw : RawEvent :=
  { timestamp := 2000, type := "damage", packetID := 12, hitType := 1,
    amount := 800, unmitigatedAmount := some 1000, targetID := 3,
    buffs := some "99.", ability := { name := "Buster", guid := 7, type := 1024 } }

def c2_table : List EventRow := get_damage_events_table c2_cfg [3] [99] 0 [c2_raw]

def c2_row : EventRow := process_damage_event c2_cfg [3] [99] 0 c2_raw

def c3w_cfg : List CategoryRow :=
  get_damage_category_table [(50, .dict (some "party") (some false) none none)]

/-- Two party-wide hits of the same cast (same `packetID`) on different
targets. -/
def c3w_raw1 : RawEvent :=
  { timestamp := 5000, type := "damage", packetID := 21, hitType := 1,
    amount := 90, unmitigatedAmount := some 100, targetID := 1,
    buffs := none, ability := { name := "Raidwide", guid := 50, type := 1024 } }

def c3w_raw2 : RawEvent :=
  { timestamp := 5100, type := "damage", packetID := 21, hitType := 1,
    amount := 180, unmitigatedAmount := some 201, targetID := 2,
    buffs := none, ability := { name := "Raidwide", guid := 50, type := 1024 } }

def c3w_table : List EventRow :=
  get_damage_events_table c3w_cfg [] [] 4000 [c3w_raw1, c3w_raw2]

def c3w_row : EventRow := process_damage_event c3w_cfg [] [] 4000 c3w_raw1

/-- A server that answers 200 OK with a body that is not valid JSON. -/
def c7_bad_post : GqlPayload → HttpResponse :=
  fun _ => { status_code := 200, jsonBody := none }

/-- A server that answers 200 OK with a JSON body. -/
def c7_good_post : GqlPayload → HttpResponse :=
  fun _ => { status_code := 200, jsonBody := some (.str "data") }

def c9w_starting : List StartingEvent :=
  [{ type := "begincast", timestamp := 50 },
   { type := "limitbreakupdate", timestamp := 1000 },
   { type := "limitbreakupdate", timestamp := 2000 }]

def c9w_raw : List RawEvent :=
  [{ timestamp := 1500, type := "damage", packetID := 31, hitType := 1,
     amount := 10, unmitigatedAmount := some 20, targetID := 1,
     buffs := none, ability := { name := "Swipe", guid := 60, type := 128 } }]

/-- Placeholder records used only as `List.getD` defaults in index-based
statements (the indices involved are always in bounds). -/
def default_raw_event : RawEvent :=
  { timestamp := 0, type := "", packetID := 0, hitType := 0, amount := 0,
    unmitigatedAmount := none, targetID := 0, buffs := none,
    ability := { name := "", guid := 0, type := 0 } }

def default_event_row : EventRow := process_damage_event [] [] [] 0 default_raw_event

/-! ## Lemmas -/

theorem kAnd_eq_some_true : ∀ a b : Option Bool,
    kAnd a b = some true ↔ a = some true ∧ b = some true := by decide

theorem kNot_eq_some_true : ∀ a : Option Bool,
    kNot a = some true ↔ a = some false := by decide

theorem kLtInt_eq_some_true (a : Option Int) (c : Int) :
    kLtInt a c = some true ↔ ∃ v, a = some v ∧ v < c := by
  cases a <;> simp [kLtInt]

theorem flag_tank_player_id_eq (tank_ids : List Int) (x : Int) :
    flag_tank_player_id tank_ids x = tank_ids.contains x := by
  cases h : tank_ids.contains x <;> simp [flag_tank_player_id, h] <;> simpa using h

theorem mem_get_damage_events_table {cfg : List CategoryRow}
    {tank_ids vuln_ids : List Int} {start : Int} {raw : List RawEvent}
    {r : EventRow} :
    r ∈ get_damage_events_table cfg tank_ids vuln_ids start raw
      ↔ ∃ e ∈ raw, (e.type == "damage") = true
          ∧ process_damage_event cfg tank_ids vuln_ids start e = r := by
  simp [get_damage_events_table, List.mem_map, List.mem_filter, and_assoc]

theorem mem_unique_keys {k : Rat} : ∀ {l : List Rat}, k ∈ unique_keys l ↔ k ∈ l := by
  intro l
  induction l using unique_keys.induct with
  | case1 => simp [unique_keys]
  | case2 k' ks ih =>
    rw [unique_keys]
    by_cases hk : k = k'
    · simp [hk]
    · simp only [List.mem_cons, ih, List.mem_filter]
      simp [hk]

theorem nodup_unique_keys : ∀ l : List Rat, (unique_keys l).Nodup := by
  intro l
  induction l using unique_keys.induct with
  | case1 => simp [unique_keys]
  | case2 k ks ih =>
    rw [unique_keys]
    refine List.nodup_cons.mpr ⟨?_, ih⟩
    rw [mem_unique_keys]
    simp [List.mem_filter]

theorem group_by_field_mk_agg_row (k : Rat) (grp : List EventRow) :
    (mk_agg_row k grp).group_by_field = k := rfl

theorem mem_aggregate_iff {rows : List EventRow} {a : AggRow} :
    a ∈ aggregate_incoming_damage rows
      ↔ ∃ k, k ∈ unique_keys (rows.map (fun r => r.group_by_field))
          ∧ a = mk_agg_row k (rows.filter (fun r => r.group_by_field = k)) := by
  unfold aggregate_incoming_damage
  rw [List.mem_insertionSort]
  simp [List.mem_map, eq_comm]

theorem nodup_agg_keys (rows : List EventRow) :
    ((aggregate_incoming_damage rows).map (fun a => a.group_by_field)).Nodup := by
  unfold aggregate_incoming_damage
  have hperm := (List.perm_insertionSort
    (fun a b : AggRow => a.elapsed_seconds ≤ b.elapsed_seconds)
    ((unique_keys (rows.map (fun r => r.group_by_field))).map
      (fun k => mk_agg_row k (rows.filter (fun r => r.group_by_field = k))))).map
    (fun a => a.group_by_field)
  rw [hperm.nodup_iff]
  rw [List.map_map]
  have : ((fun a : AggRow => a.group_by_field) ∘
      (fun k => mk_agg_row k (rows.filter (fun r => r.group_by_field = k)))) = id := by
    funext k
    rfl
  rw [this, List.map_id]
  exact nodup_unique_keys _

theorem median_rat_isSome {l : List Rat} (h : l ≠ []) :
    ∃ q, median_rat l = some q := by
  unfold median_rat
  simp only [List.length_insertionSort]
  have h0 : ¬ l.length = 0 := by simpa [List.length_eq_zero] using h
  rw [if_neg h0]
  by_cases hodd : l.length % 2 = 1
  · rw [if_pos hodd]; exact ⟨_, rfl⟩
  · rw [if_neg hodd]; exact ⟨_, rfl⟩

theorem party_filter_expr_iff {c : Int} {r : EventRow} :
    (party_filter_expr c r == some true) = true
      ↔ (r.is_tank = false ∧ r.is_tank_damage = some false
         ∧ r.is_vuln_damage = false
         ∧ ∃ v, r.unmitigatedAmount = some v ∧ v < c) := by
  rw [beq_iff_eq]
  unfold party_filter_expr
  rw [kAnd_eq_some_true, kAnd_eq_some_true, kAnd_eq_some_true, kAnd_eq_some_true,
    kNot_eq_some_true, kNot_eq_some_true, kNot_eq_some_true, kLtInt_eq_some_true]
  constructor
  · rintro ⟨⟨⟨⟨h1, h2⟩, h3⟩, _⟩, v, hv, hvc⟩
    exact ⟨by simpa using h1, h2, by simpa using h3, v, hv, hvc⟩
  · rintro ⟨h1, h2, h3, v, hv, hvc⟩
    exact ⟨⟨⟨⟨by simp [h1], h2⟩, by simp [h3]⟩, by simp [hv]⟩, v, hv, hvc⟩

theorem tank_filter_expr_iff {c : Int} {r : EventRow} :
    (tank_filter_expr c r == some true) = true
      ↔ (r.is_tank = true ∧ r.is_tank_damage = some true
         ∧ ∃ v, r.unmitigatedAmount = some v ∧ v < c) := by
  rw [beq_iff_eq]
  unfold tank_filter_expr
  rw [kAnd_eq_some_true, kAnd_eq_some_true, kAnd_eq_some_true, kLtInt_eq_some_true]
  constructor
  · rintro ⟨⟨⟨h1, h2⟩, _⟩, v, hv, hvc⟩
    exact ⟨by simpa using h1, h2, v, hv, hvc⟩
  · rintro ⟨h1, h2, v, hv, hvc⟩
    exact ⟨⟨⟨by simp [h1], h2⟩, by simp [hv]⟩, v, hv, hvc⟩

theorem mem_party_profile_events {c : Int} {fu : Bool} {rows : List EventRow}
    {r : EventRow} :
    r ∈ party_profile_events c fu rows
      ↔ r ∈ rows ∧ (party_filter_expr c r == some true) = true
          ∧ (fu = true → r.damage_category.isSome = true) := by
  unfold party_profile_events
  cases fu <;> simp [List.mem_filter]
  tauto

theorem mem_tank_profile_events {c : Int} {fuE fv : Bool} {rows : List EventRow}
    {r : EventRow} :
    r ∈ tank_profile_events c fuE fv rows
      ↔ r ∈ rows ∧ (tank_filter_expr c r == some true) = true
          ∧ (fv = true → r.is_vuln_damage = false) := by
  unfold tank_profile_events
  cases fv <;> simp [List.mem_filter]
  tauto

theorem table_row_fields {cfg : List CategoryRow} {tank_ids vuln_ids : List Int}
    {start : Int} {raw : List RawEvent} {r : EventRow}
    (hr : r ∈ get_damage_events_table cfg tank_ids vuln_ids start raw) :
    r.is_tank = tank_ids.contains r.targetID
    ∧ r.is_tank_damage
        = (lookup_category cfg r.ability_id).map (fun c => c.is_tank_damage)
    ∧ r.group_by_field
        = assign_group_by_field r.damage_category r.packetID r.elapsed_seconds := by
  rcases mem_get_damage_events_table.mp hr with ⟨e, _, _, hproc⟩
  subst hproc
  exact ⟨flag_tank_player_id_eq tank_ids e.targetID, rfl, rfl⟩

/-! ## Claim C1 -/

/-- C1, counterexample.  The claim states that with
`filter_uncategorized_damage=False` an event is included in the party
profile whenever its target is not a tank, its ability is not flagged as
tank damage, it is not vulnerability damage, and its unmitigated amount
is non-null and below the ceiling — with the `damage_category` condition
dropped.  `c1_row` (ability 42, absent from an empty category
configuration) satisfies all of those conditions, yet is excluded: its
null `is_tank_damage` makes the Kleene filter evaluate to null, so the
claimed equivalence is false at this input. -/
theorem c1_counterexample :
    c1_row ∈ c1_table
    ∧ c1_row ∉ party_profile_events 300000 false c1_table
    ∧ c1_row.is_tank = false
    ∧ ¬ c1_row.is_tank_damage = some true
    ∧ c1_row.is_vuln_damage = false
    ∧ c1_row.unmitigatedAmount = some 100 ∧ ((100 : Int) < 300000) := by
  refine ⟨?_, ?_, by decide, by decide, by decide, by decide, by decide⟩
  · exact mem_get_damage_events_table.mpr
      ⟨c1_raw, List.mem_singleton_self _, by decide, rfl⟩
  · rw [show party_profile_events 300000 false c1_table = [] from by decide]
    exact List.not_mem_nil _

/-- C1, amended: an event of the processed table is included in the
party-profile aggregation if and only if its target is not a tank, its
tank-damage flag is present and false (so in particular its ability
appears in the category configuration — a null flag from an
uncategorized ability fails the Kleene filter even when
`filter_uncategorized_damage` is False), it is not flagged as
vulnerability damage, its `unmitigatedAmount` is non-null and strictly
below `party_damage_ceiling`, and, when `filter_uncategorized_damage`,
its `damage_category` is non-null. -/
theorem c1_amended_theorem (cfg : List CategoryRow) (tank_ids vuln_ids : List Int)
    (start : Int) (raw : List RawEvent) (ceil : Int) (fu : Bool) (r : EventRow)
    (hr : r ∈ get_damage_events_table cfg tank_ids vuln_ids start raw) :
    r ∈ party_profile_events ceil fu
        (get_damage_events_table cfg tank_ids vuln_ids start raw)
      ↔ (r.is_tank = false ∧ r.is_tank_damage = some false
         ∧ r.is_vuln_damage = false
         ∧ (∃ v, r.unmitigatedAmount = some v ∧ v < ceil)
         ∧ (fu = true → r.damage_category.isSome = true)) := by
  rw [mem_party_profile_events]
  simp only [hr, true_and, party_filter_expr_iff, and_assoc]

/-- C1 witness: a configured party event satisfies both sides of the
amended equivalence. -/
theorem c1_amended_witness :
    c1w_row ∈ c1w_table
    ∧ (c1w_row ∈ party_profile_events 300000 true c1w_table
       ↔ (c1w_row.is_tank = false ∧ c1w_row.is_tank_damage = some false
          ∧ c1w_row.is_vuln_damage = false
          ∧ (∃ v, c1w_row.unmitigatedAmount = some v ∧ v < 300000)
          ∧ (true = true → c1w_row.damage_category.isSome = true))) := by
  have hmem : c1w_row ∈ c1w_table := mem_get_damage_events_table.mpr
    ⟨c1_raw, List.mem_singleton_self _, by decide, rfl⟩
  exact ⟨hmem, c1_amended_theorem c1w_cfg [] [] 0 [c1_raw] 300000 true c1w_row hmem⟩

/-! ## Claim C2 -/

/-- C2, counterexample.  The claim states that vulnerability-flagged
events appear in neither profile under default arguments.  `c2_row` is
flagged as vulnerability damage (buff 99 is a Vulnerability Up id), yet
with the default `filter_vulns=False` it appears in the tank profile
(both pre-projection and in the projected output). -/
theorem c2_counterexample :
    c2_row.is_vuln_damage = true
    ∧ c2_row ∈ c2_table
    ∧ c2_row ∈ tank_profile_events 600000 true false c2_table
    ∧ to_tank_row c2_row ∈ get_incoming_tank_damage_profile 600000 true false c2_table := by
  have hmem : c2_row ∈ c2_table := mem_get_damage_events_table.mpr
    ⟨c2_raw, List.mem_singleton_self _, by decide, rfl⟩
  have hprof : c2_row ∈ tank_profile_events 600000 true false c2_table :=
    mem_tank_profile_events.mpr ⟨hmem, by decide, fun h => absurd h (by decide)⟩
  exact ⟨by decide, hmem, hprof, List.mem_map_of_mem to_tank_row hprof⟩

/-- C2, amended: a vulnerability-flagged event never enters the
party-profile aggregation, and is excluded from the tank profile only
when `filter_vulns` is True (the default False keeps it there, as the
counterexample shows). -/
theorem c2_amended_theorem (rows : List EventRow) (r : EventRow) (hr : r ∈ rows)
    (hv : r.is_vuln_damage = true) :
    (∀ ceil fu, r ∉ party_profile_events ceil fu rows)
    ∧ (∀ ceil fuE, r ∉ tank_profile_events ceil fuE true rows) := by
  constructor
  · intro ceil fu hmem
    rcases mem_party_profile_events.mp hmem with ⟨_, hexpr, _⟩
    rcases party_filter_expr_iff.mp hexpr with ⟨_, _, hvf, _⟩
    rw [hv] at hvf
    simp at hvf
  · intro ceil fuE hmem
    rcases mem_tank_profile_events.mp hmem with ⟨_, _, hvuln⟩
    have hvf := hvuln rfl
    rw [hv] at hvf
    simp at hvf

/-- C2 witness: the amended exclusions hold at the concrete
vulnerability-flagged event. -/
theorem c2_amended_witness :
    c2_row ∈ c2_table ∧ c2_row.is_vuln_damage = true
    ∧ (∀ ceil fu, c2_row ∉ party_profile_events ceil fu c2_table)
    ∧ (∀ ceil fuE, c2_row ∉ tank_profile_events ceil fuE true c2_table) := by
  have hmem : c2_row ∈ c2_table := mem_get_damage_events_table.mpr
    ⟨c2_raw, List.mem_singleton_self _, by decide, rfl⟩
  have h := c2_amended_theorem c2_table c2_row hmem (by decide)
  exact ⟨hmem, by decide, h.1, h.2⟩

/-! ## Claim C3 -/

/-- C3: every event kept by the party-profile filter is grouped by its
`packetID` when its `damage_category` is `"party"` and by its
`elapsed_seconds` otherwise; its group produces exactly one profile row,
whose `elapsed_seconds` is the group median, whose `unmitigatedAmount`
is the median of the group's values cast to int, and whose
`ability_name`, `description`, `damage_type` and `damage_type_id` come
from the first row of the group. -/
theorem c3_theorem (cfg : List CategoryRow) (tank_ids vuln_ids : List Int)
    (start : Int) (raw : List RawEvent) (ceil : Int) (fu : Bool) (r : EventRow)
    (hr : r ∈ party_profile_events ceil fu
      (get_damage_events_table cfg tank_ids vuln_ids start raw)) :
    r.group_by_field = (if r.damage_category = some "party" then (r.packetID : Rat)
        else r.elapsed_seconds)
    ∧ ∃ a ∈ get_incoming_damage_profile ceil fu
        (get_damage_events_table cfg tank_ids vuln_ids start raw),
        a.group_by_field = r.group_by_field
        ∧ (∀ b ∈ get_incoming_damage_profile ceil fu
            (get_damage_events_table cfg tank_ids vuln_ids start raw),
            b.group_by_field = r.group_by_field → b = a)
        ∧ agg_row_spec a
            ((party_profile_events ceil fu
              (get_damage_events_table cfg tank_ids vuln_ids start raw)).filter
              (fun x => x.group_by_field = r.group_by_field)) := by
  have htbl : r ∈ get_damage_events_table cfg tank_ids vuln_ids start raw :=
    (mem_party_profile_events.mp hr).1
  refine ⟨(table_row_fields htbl).2.2, ?_⟩
  set rows := party_profile_events ceil fu
    (get_damage_events_table cfg tank_ids vuln_ids start raw) with hrows
  set k := r.group_by_field with hk
  have hkmem : k ∈ unique_keys (rows.map (fun x => x.group_by_field)) := by
    rw [mem_unique_keys]
    exact List.mem_map_of_mem (fun x => x.group_by_field) hr
  set grp := rows.filter (fun x => x.group_by_field = k) with hgrp
  have hrgrp : r ∈ grp := by
    rw [hgrp, List.mem_filter]
    exact ⟨hr, by simp⟩
  have hgrpne : grp ≠ [] := List.ne_nil_of_mem hrgrp
  have hagg : mk_agg_row k grp ∈ aggregate_incoming_damage rows :=
    mem_aggregate_iff.mpr ⟨k, hkmem, rfl⟩
  refine ⟨mk_agg_row k grp, hagg, rfl, ?_, ?_⟩
  · intro b hb hbk
    exact List.inj_on_of_nodup_map (nodup_agg_keys rows) hb hagg
      (by rw [hbk, group_by_field_mk_agg_row])
  · obtain ⟨m, hm⟩ := median_rat_isSome
      (fun h => hgrpne (List.map_eq_nil_iff.mp h) :
        grp.map (fun x => x.elapsed_seconds) ≠ [])
    refine ⟨?_, rfl, ?_⟩
    · rw [hm]
      show some m = some ((median_rat (grp.map (fun x => x.elapsed_seconds))).getD 0)
      rw [hm]
      rfl
    · intro x hx
      cases hgrp2 : grp with
      | nil => rw [hgrp2] at hx; cases hx
      | cons y ys =>
        rw [hgrp2] at hx
        simp only [List.head?_cons, Option.some.injEq] at hx
        subst hx
        exact ⟨rfl, rfl, rfl, rfl⟩

/-- C3 witness: the grouping property instantiated at a concrete
two-hit party cast. -/
theorem c3_witness :
    c3w_row ∈ party_profile_events 300000 true c3w_table
    ∧ (c3w_row.group_by_field
        = (if c3w_row.damage_category = some "party" then (c3w_row.packetID : Rat)
           else c3w_row.elapsed_seconds)
       ∧ ∃ a ∈ get_incoming_damage_profile 300000 true c3w_table,
           a.group_by_field = c3w_row.group_by_field
           ∧ (∀ b ∈ get_incoming_damage_profile 300000 true c3w_table,
               b.group_by_field = c3w_row.group_by_field → b = a)
           ∧ agg_row_spec a
               ((party_profile_events 300000 true c3w_table).filter
                 (fun x => x.group_by_field = c3w_row.group_by_field))) := by
  have htbl : c3w_row ∈ c3w_table := mem_get_damage_events_table.mpr
    ⟨c3w_raw1, List.mem_cons_self _ _, by decide, rfl⟩
  have hmem : c3w_row ∈ party_profile_events 300000 true c3w_table :=
    mem_party_profile_events.mpr ⟨htbl, by decide, fun _ => by decide⟩
  exact ⟨hmem, c3_theorem c3w_cfg [] [] 4000 [c3w_raw1, c3w_raw2] 300000 true c3w_row hmem⟩

theorem tank_filter_expr_eq_iff {c : Int} {r : EventRow} :
    tank_filter_expr c r = some true
      ↔ (r.is_tank = true ∧ r.is_tank_damage = some true
         ∧ ∃ v, r.unmitigatedAmount = some v ∧ v < c) := by
  constructor
  · intro h
    exact tank_filter_expr_iff.mp (by rw [h]; rfl)
  · intro h
    exact eq_of_beq (tank_filter_expr_iff.mpr h)

theorem unmit_match_iff {o : Option Int} {tceil : Int} :
    (match o with | some v => decide (v < tceil) | none => false) = true
      ↔ ∃ v, o = some v ∧ v < tceil := by
  cases o <;> simp

theorem c4_pointwise (fv : Bool) (tceil : Int) {cfg : List CategoryRow}
    {tank_ids : List Int} {r : EventRow}
    (h1 : r.is_tank = tank_ids.contains r.targetID)
    (h2 : r.is_tank_damage
      = (lookup_category cfg r.ability_id).map (fun c => c.is_tank_damage)) :
    ((tank_filter_expr tceil r == some true) && (!fv || !r.is_vuln_damage))
      = c4_spec_pred cfg tank_ids tceil fv r := by
  rw [Bool.eq_iff_iff]
  simp only [Bool.and_eq_true, beq_iff_eq, tank_filter_expr_eq_iff, c4_spec_pred,
    unmit_match_iff, h1, h2]
  tauto

/-! ## Claim C4 -/

/-- C4: `get_incoming_tank_damage_profile` returns exactly the
unaggregated rows of the damage-events table whose target is a tank,
whose ability is tagged as tank damage in the curated category
configuration, and whose `unmitigatedAmount` is non-null and strictly
below `tank_damage_ceiling` — with vulnerability-flagged rows further
removed when `filter_vulns` — projected to the eight output columns. -/
theorem c4_theorem (cfg : List CategoryRow) (tank_ids vuln_ids : List Int)
    (start : Int) (raw : List RawEvent) (tceil : Int) (fuE fv : Bool) :
    get_incoming_tank_damage_profile tceil fuE fv
        (get_damage_events_table cfg tank_ids vuln_ids start raw)
      = ((get_damage_events_table cfg tank_ids vuln_ids start raw).filter
          (c4_spec_pred cfg tank_ids tceil fv)).map to_tank_row := by
  unfold get_incoming_tank_damage_profile
  congr 1
  unfold tank_profile_events
  cases fv with
  | false =>
    simp only [Bool.false_eq_true, if_false]
    refine List.filter_congr ?_
    intro r hrmem
    have hf := table_row_fields hrmem
    have hp := c4_pointwise false tceil hf.1 hf.2.1
    simpa using hp
  | true =>
    simp only [if_true]
    rw [List.filter_filter]
    refine List.filter_congr ?_
    intro r hrmem
    have hf := table_row_fields hrmem
    have hp := c4_pointwise true tceil hf.1 hf.2.1
    rw [Bool.and_comm]
    simpa using hp

/-! ## Claim C5 -/

/-- C5: the party-damage profile is sorted by `elapsed_seconds`: every
row's value is at most the next row's value. -/
theorem c5_theorem (ceil : Int) (fu : Bool) (rows : List EventRow) :
    List.Pairwise (fun a b : AggRow => a.elapsed_seconds ≤ b.elapsed_seconds)
      (get_incoming_damage_profile ceil fu rows) := by
  unfold get_incoming_damage_profile aggregate_incoming_damage
  exact List.sorted_insertionSort _ _

theorem foldl_sections (generate_section : String → FightData → Except String String) :
    ∀ (logs : List (String × FightData)) (init : String),
      logs.foldl (fun html_content fight =>
        match generate_section fight.1 fight.2 with
        | .ok sec => html_content ++ sec
        | .error e => html_content ++ error_placeholder_section fight.1 e) init
      = init ++ sections_html generate_section logs := by
  intro logs
  induction logs with
  | nil =>
    intro init
    simp [sections_html, String.append_empty]
  | cons f fs ih =>
    intro init
    rw [List.foldl_cons]
    cases hgen : generate_section f.1 f.2 with
    | ok sec =>
      rw [ih]
      show (init ++ sec) ++ sections_html generate_section fs = _
      rw [String.append_assoc]
      show _ = init ++ sections_html generate_section (f :: fs)
      unfold sections_html
      rw [List.foldr_cons, hgen]
    | error e =>
      rw [ih]
      show (init ++ error_placeholder_section f.1 e)
          ++ sections_html generate_section fs = _
      rw [String.append_assoc]
      show _ = init ++ sections_html generate_section (f :: fs)
      unfold sections_html
      rw [List.foldr_cons, hgen]

/-! ## Claim C6 -/

/-- C6: for every configured fight list and every behaviour of the
section generator (including raising on any subset of fights), the page
content `main` writes is total and equal to the header, the table of
contents, one section per fight — the generated one on success, the
error placeholder on failure — in order, and the footer.  In
particular a failing fight does not stop the loop, and the file content
is produced no matter how many fights failed. -/
theorem c6_theorem (header toc footer : String)
    (generate_section : String → FightData → Except String String)
    (logs : List (String × FightData)) :
    main_html_content header toc footer generate_section logs
      = header ++ toc ++ sections_html generate_section logs ++ footer := by
  unfold main_html_content
  rw [foldl_sections]

/-! ## Claim C7 -/

/-- C7, counterexample.  The claim states `gql_query` raises if and only
if the HTTP status is an error status.  Against a server returning
status 200 with a non-JSON body, `gql_query` still raises (from
`response.json()`), so the "only if" direction is false. -/
theorem c7_counterexample :
    gql_query c7_bad_post "q" [] "op" = .error .jsonDecodeError
    ∧ (c7_bad_post ⟨"q", [], "op"⟩).status_code = 200 := ⟨rfl, rfl⟩

/-- C7, amended: `gql_query` raises if and only if the response status
is a client or server error (4xx/5xx, what `raise_for_status` raises
for) or the response body is not valid JSON; on a non-error status with
a valid JSON body it returns the parsed body. -/
theorem c7_amended_theorem (post : GqlPayload → HttpResponse) (q : String)
    (vars : List (String × JsonValue)) (op : String) :
    ((∃ e, gql_query post q vars op = .error e)
       ↔ ((400 ≤ (post ⟨q, vars, op⟩).status_code
            ∧ (post ⟨q, vars, op⟩).status_code < 600)
          ∨ (post ⟨q, vars, op⟩).jsonBody = none))
    ∧ ∀ j, ¬(400 ≤ (post ⟨q, vars, op⟩).status_code
          ∧ (post ⟨q, vars, op⟩).status_code < 600)
        → (post ⟨q, vars, op⟩).jsonBody = some j
        → gql_query post q vars op = .ok j := by
  unfold gql_query raise_for_status response_json
  simp only []
  by_cases herr : 400 ≤ (post ⟨q, vars, op⟩).status_code
    ∧ (post ⟨q, vars, op⟩).status_code < 600
  · rw [if_pos herr]
    constructor
    · exact ⟨fun _ => Or.inl herr, fun _ => ⟨_, rfl⟩⟩
    · intro j hj
      exact absurd herr hj
  · rw [if_neg herr]
    cases hbody : (post ⟨q, vars, op⟩).jsonBody with
    | none =>
      constructor
      · exact ⟨fun _ => Or.inr rfl, fun _ => ⟨_, rfl⟩⟩
      · intro j _ hj
        exact Option.noConfusion hj
    | some j0 =>
      constructor
      · constructor
        · rintro ⟨e, he⟩
          cases he
        · rintro (h | h)
          · exact absurd h herr
          · exact Option.noConfusion h
      · intro j _ hj
        cases hj
        rfl

/-- C7 witness: against a server answering 200 with a JSON body, the
query returns the parsed body. -/
theorem c7_amended_witness :
    gql_query c7_good_post "q" [] "op" = .ok (.str "data")
    ∧ ¬(400 ≤ (c7_good_post ⟨"q", [], "op"⟩).status_code
        ∧ (c7_good_post ⟨"q", [], "op"⟩).status_code < 600) := by
  refine ⟨(c7_amended_theorem c7_good_post "q" [] "op").2 (.str "data") (by decide) rfl,
    by decide⟩

/-! ## Claim C8 -/

/-- C8, counterexample.  The claim states that the processed table
consists of seven columns (the described data items).  The table in fact
has nineteen columns; for instance `is_tank` is a column of the table
but not one of the described items. -/
theorem c8_counterexample :
    damage_events_table_columns.length = 19
    ∧ ¬ damage_events_table_columns.length = 7
    ∧ "is_tank" ∈ damage_events_table_columns
    ∧ "is_tank" ∉ spec_described_columns := by decide

/-- C8, amended: the processed damage-events table contains columns for
all the described data items — timestamp offset (`elapsed_seconds`),
ability id and name, raw (`amount`) and unmitigated amount, target id,
buff list and damage category — among its nineteen columns, which also
include derived flags, formatting, join metadata and the grouping key. -/
theorem c8_amended_theorem :
    (spec_described_columns.all
      (fun c => damage_events_table_columns.contains c)) = true
    ∧ damage_events_table_columns.length = 19 := by decide

/-! ## Claim C9 -/

/-- C9: the start timestamp is the timestamp of the first
`"limitbreakupdate"` starting event; when no such event exists (the
`except` fallback) it is the first damage event's timestamp; and every
`elapsed_seconds` value of the processed table is the corresponding raw
event's timestamp minus the start timestamp, divided by 1000. -/
theorem c9_theorem (starting : List StartingEvent) (raw : List RawEvent) :
    (∀ e, (starting.filter (fun s => s.type == "limitbreakupdate")).head? = some e →
        get_start_timestamp starting raw = some e.timestamp)
    ∧ ((starting.filter (fun s => s.type == "limitbreakupdate")) = [] →
        get_start_timestamp starting raw = raw.head?.map (fun d => d.timestamp))
    ∧ ∀ (cfg : List CategoryRow) (tank_ids vuln_ids : List Int) (st : Int),
        get_start_timestamp starting raw = some st →
        ∀ i, i < (get_damage_events_table cfg tank_ids vuln_ids st raw).length →
          ((get_damage_events_table cfg tank_ids vuln_ids st raw).getD i
              default_event_row).elapsed_seconds
            = ((((raw.filter (fun e => e.type == "damage")).getD i
                  default_raw_event).timestamp : Rat) - (st : Rat)) / 1000 := by
  refine ⟨?_, ?_, ?_⟩
  · intro e he
    unfold get_start_timestamp
    rw [he]
  · intro h
    unfold get_start_timestamp
    rw [h]
    rfl
  · intro cfg tank_ids vuln_ids st _ i hi
    unfold get_damage_events_table at hi ⊢
    have hi' : i < (raw.filter (fun e => e.type == "damage")).length := by
      simpa using hi
    rw [List.getD_eq_getElem?_getD, List.getElem?_map,
      List.getElem?_eq_getElem hi']
    rw [List.getD_eq_getElem?_getD, List.getElem?_eq_getElem hi']
    rfl

/-- C9 witness: with a limit-break update at timestamp 1000 among the
starting events and one damage event at timestamp 1500, the start
timestamp is 1000 and the event's elapsed seconds is (1500 − 1000) /
1000. -/
theorem c9_witness :
    (c9w_starting.filter (fun s => s.type == "limitbreakupdate")).head?
        = some { type := "limitbreakupdate", timestamp := 1000 }
    ∧ get_start_timestamp c9w_starting c9w_raw = some 1000
    ∧ 0 < (get_damage_events_table [] [] [] 1000 c9w_raw).length
    ∧ ((get_damage_events_table [] [] [] 1000 c9w_raw).getD 0
          default_event_row).elapsed_seconds
        = ((((c9w_raw.filter (fun e => e.type == "damage")).getD 0
              default_raw_event).timestamp : Rat) - ((1000 : Int) : Rat)) / 1000 := by
  have hhead : (c9w_starting.filter (fun s => s.type == "limitbreakupdate")).head?
      = some { type := "limitbreakupdate", timestamp := 1000 } := by decide
  have hlen : 0 < (get_damage_events_table [] [] [] 1000 c9w_raw).length := by decide
  have hstart := (c9_theorem c9w_starting c9w_raw).1
    { type := "limitbreakupdate", timestamp := 1000 } hhead
  have helapsed := (c9_theorem c9w_starting c9w_raw).2.2 [] [] [] 1000 hstart 0 hlen
  exact ⟨hhead, hstart, hlen, helapsed⟩

/-! ## Claim C10 -/

/-- C10: an event whose `buffs` field is absent gets a null buff list,
is flagged `is_vuln_damage = False` by `flag_vuln_status`'s
`fill_null(False)`, and therefore satisfies the vulnerability conjunct
of the party-profile filter (it is never excluded on vulnerability
grounds). -/
theorem c10_theorem (cfg : List CategoryRow) (tank_ids vuln_ids : List Int)
    (start : Int) (e : RawEvent) (hb : e.buffs = none) :
    make_buff_list_col e.buffs = none
    ∧ (process_damage_event cfg tank_ids vuln_ids start e).is_vuln_damage = false
    ∧ kNot (some ((process_damage_event cfg tank_ids vuln_ids start e).is_vuln_damage))
        = some true := by
  refine ⟨by rw [hb]; rfl, ?_, ?_⟩
  · show flag_vuln_status vuln_ids (make_buff_list_col e.buffs) = false
    rw [hb]
    rfl
  · show kNot (some (flag_vuln_status vuln_ids (make_buff_list_col e.buffs)))
        = some true
    rw [hb]
    rfl

/-- C10 witness: the property instantiated at the concrete buff-less
event. -/
theorem c10_witness :
    c1_raw.buffs = none
    ∧ (make_buff_list_col c1_raw.buffs = none
       ∧ (process_damage_event [] [] [5] 0 c1_raw).is_vuln_damage = false
       ∧ kNot (some ((process_damage_event [] [] [5] 0 c1_raw).is_vuln_damage))
           = some true) :=
  ⟨rfl, c10_theorem [] [] [5] 0 c1_raw rfl⟩
